import Mathlib

/-!
# RSI alert bot (`src/index.js`): shallow embedding and verified properties

The program polls a market-data provider for RSI, Ichimoku and EMA values of a
fixed list of currency pairs, applies threshold rules and posts messages to a
Telegram sink, subject to a daily ceiling on delivered messages.

Modelling conventions.

* A JavaScript number is `JSNum`: `NaN`, the two infinities, or a finite value.
  A finite double is a rational number, so finite values are carried in `ℚ`;
  comparison and `Math.floor` are exact on doubles, hence on these values.
  A field of a provider response carries the number `parseFloat` reads from
  its text. `parseInt` is modelled on strings, and rounds the integer it reads
  to the nearest double, as the language does. The counter `alertCount` is a
  natural number: it is exact as long as it stays below `2 ^ 53`.
* An `async` function is a state transformer returning whether its promise is
  fulfilled or rejected together with the new state.
* The network is an oracle `Net`, indexed by the length of the event log at the
  moment of the request, so that the same request may be answered differently
  at different times.
* The state carries the program variable `alertCount` and a ghost event log of
  schedule registrations, calls of `sendTelegram` and outbound requests.
* Message texts are kept in structured form (`Msg`): which template is used
  and the values interpolated into it. The wall-clock stamp appended by
  `getISTTime` and the digit rendering of `toFixed(2)` are left out.
-/

namespace Forex

/-! ## JavaScript values -/

/-- A JavaScript number: `NaN`, `-Infinity`, `Infinity` or a finite value. -/
inductive JSNum where
  | nan
  | negInf
  | posInf
  | fin (q : ℚ)
deriving DecidableEq

namespace JSNum

/-- The global `isNaN` on a number. -/
def isNaN : JSNum → Bool
  | nan => true
  | _ => false

/-- The relational operator `a < b` on numbers. -/
def lt : JSNum → JSNum → Bool
  | nan, _ => false
  | _, nan => false
  | fin a, fin b => decide (a < b)
  | fin _, posInf => true
  | fin _, negInf => false
  | negInf, negInf => false
  | negInf, _ => true
  | posInf, _ => false

/-- The relational operator `a > b`, which JavaScript evaluates as `b < a`. -/
def gt (a b : JSNum) : Bool := lt b a

/-- The function `Math.floor`. -/
def floor : JSNum → JSNum
  | fin q => fin (⌊q⌋ : ℤ)
  | x => x

/-- The conversion `ToBoolean` on a number: `NaN` and zero are falsy. -/
def toBoolean : JSNum → Bool
  | nan => false
  | fin q => decide (q ≠ 0)
  | _ => true

/-- The relational operator `a >= b`: false when `a < b` is true or when
either side is `NaN`. -/
def ge (a b : JSNum) : Bool := !(a.isNaN || b.isNaN) && !(lt a b)

/-- The relational operator `a <= b`: false when `b < a` is true or when
either side is `NaN`. -/
def le (a b : JSNum) : Bool := !(a.isNaN || b.isNaN) && !(lt b a)

/-- An integer as a number. -/
def ofInt (z : ℤ) : JSNum := fin (z : ℚ)

/-- A natural number as a number. -/
def ofNat (n : Nat) : JSNum := fin (n : ℚ)

end JSNum

/-- Template-literal interpolation of a value that may be `undefined`. -/
def render : Option String → String
  | none => "undefined"
  | some s => s

/-! ## `parseInt` with the radix omitted -/

/-- The white space and line terminator code points skipped by `parseInt`. -/
def isWhiteSpace (c : Char) : Bool :=
  let n := c.toNat
  n = 9 || n = 10 || n = 11 || n = 12 || n = 13 || n = 32 || n = 160 ||
  n = 5760 || (8192 ≤ n && n ≤ 8202) || n = 8232 || n = 8233 || n = 8239 ||
  n = 8287 || n = 12288 || n = 65279

/-- The value of a character as a digit: `0`-`9`, then `a`-`z` and `A`-`Z`
counting from ten. -/
def digitValue (c : Char) : Option Nat :=
  let n := c.toNat
  if 48 ≤ n ∧ n ≤ 57 then some (n - 48)
  else if 97 ≤ n ∧ n ≤ 122 then some (n - 97 + 10)
  else if 65 ≤ n ∧ n ≤ 90 then some (n - 65 + 10)
  else none

/-- Whether a character is a digit of radix `R`. -/
def isRadixDigit (R : Nat) (c : Char) : Bool :=
  match digitValue c with
  | some d => decide (d < R)
  | none => false

/-- The mathematical value of a list of radix-`R` digits. -/
def digitsValue (R : Nat) (Z : List Char) : Nat :=
  Z.foldl (fun acc c => acc * R + (digitValue c).getD 0) 0

/-- The sign step of `parseInt`: a leading `-` gives sign `-1`, and a leading
`+` or `-` is removed. -/
def splitSign : List Char → ℤ × List Char
  | '-' :: r => (-1, r)
  | '+' :: r => (1, r)
  | S => (1, S)

/-- The radix step of `parseInt` without a radix argument: a leading `0x` or
`0X` is removed and selects radix 16, otherwise the radix is 10. -/
def splitRadix : List Char → Nat × List Char
  | '0' :: 'x' :: r => (16, r)
  | '0' :: 'X' :: r => (16, r)
  | S => (10, S)

/-- The number of binary digits a natural number has beyond the 53 that the
significand of a double holds; the first argument bounds the recursion. -/
def excessBits : Nat → Nat → Nat
  | 0, _ => 0
  | fuel + 1, n => if n < 2 ^ 53 then 0 else excessBits fuel (n / 2) + 1

/-- The double nearest to a natural number, ties going to the even significand;
`none` is `Infinity`, reached when the rounded value leaves the range of
doubles, that is at `2 ^ 1024`. -/
def roundToDouble (n : Nat) : Option Nat :=
  let e := excessBits n n
  let q := n / 2 ^ e
  let r := n % 2 ^ e
  let up := decide (2 ^ e < 2 * r) || (decide (2 * r = 2 ^ e) && decide (q % 2 = 1))
  let significand := if up then q + 1 else q
  if e < 971 ∨ (e = 971 ∧ significand < 2 ^ 53) then some (significand * 2 ^ e) else none

/-- JavaScript `parseInt(input)`; `none` as input is `undefined`. The integer
denoted by the digits is rounded to a double; the engine is taken to read every
digit, as V8 does. -/
def parseInt (input : Option String) : JSNum :=
  let inputString := render input
  let S := inputString.toList.dropWhile isWhiteSpace
  let signed := splitSign S
  let based := splitRadix signed.2
  let Z := based.2.takeWhile (isRadixDigit based.1)
  if Z.isEmpty then JSNum.nan
  else
    match roundToDouble (digitsValue based.1 Z) with
    | some m => JSNum.ofInt (signed.1 * (m : ℤ))
    | none => if signed.1 = -1 then JSNum.negInf else JSNum.posInf

/-! ## Configuration and constants -/

/-- The environment variables read at startup (`process.env`); `none` is an
unset variable. -/
structure ProcessEnv where
  API_KEY : Option String
  CHAT_ID : Option String
  BOT_TOKEN : Option String
  MAX_DAILY_ALERTS : Option String

abbrev Symbol := String

def API_KEY (env : ProcessEnv) : Option String := env.API_KEY

def CHAT_ID (env : ProcessEnv) : Option String := env.CHAT_ID

def BOT_TOKEN (env : ProcessEnv) : Option String := env.BOT_TOKEN

def TELEGRAM_API (env : ProcessEnv) : String :=
  "https://api.telegram.org/bot" ++ render (BOT_TOKEN env) ++ "/sendMessage"

def FOREX_PAIRS : List Symbol :=
  ["AUDCAD", "AUDCHF", "AUDJPY", "AUDNZD", "AUDUSD",
   "CADCHF", "CADJPY", "CHFJPY", "EURAUD", "EURCAD",
   "EURCHF", "EURGBP", "EURJPY", "EURNZD", "EURUSD",
   "GBPAUD", "GBPCAD", "GBPCHF", "GBPJPY", "GBPNZD",
   "GBPUSD", "NZDCAD", "NZDCHF", "NZDJPY", "NZDUSD",
   "USDCAD", "USDCHF", "USDJPY"]

def ZONES : List ℤ := [10, 20, 30, 80, 90, 100]

/-- The constant `parseInt(process.env.MAX_DAILY_ALERTS) || 800`: `NaN` and
zero are falsy and give 800. -/
def MAX_DAILY_ALERTS (env : ProcessEnv) : JSNum :=
  let parsed := parseInt env.MAX_DAILY_ALERTS
  if parsed.toBoolean then parsed else JSNum.ofInt 800

/-! ## Provider responses and the network oracle -/

/-- One element of the `values` series of a provider response: a JSON object
whose properties may be missing (`none` is `undefined`). The properties `rsi`
and `ema` carry the number `parseFloat` reads from their text (`nan` when the
text is not numeric); the Ichimoku properties carry their text. -/
structure Entry where
  rsi : Option JSNum
  ema : Option JSNum
  tenkan_sen : Option String
  kijun_sen : Option String
  senkou_span_b : Option String
deriving DecidableEq

/-- The body `res.data` of a provider response: the property `values` is
missing (`none`) or an array whose elements are objects or `null`. -/
structure Data where
  values : Option (List (Option Entry))
deriving DecidableEq

/-- The settlement of `axios.get(url)`: rejected (network failure or a status
outside 2xx), or fulfilled with a response whose `data` is an object or not
(`none`, on which reading `.values` throws a `TypeError`). -/
inductive Response where
  | rejected
  | fulfilled (data : Option Data)
deriving DecidableEq

/-- JavaScript `parseFloat` on a property value: `undefined` reads as `NaN`. -/
def parseFloat : Option JSNum → JSNum
  | none => JSNum.nan
  | some x => x

/-- The expression `values?.[0]`: `undefined` when `values` is missing, the
array is empty, or (for the later `?.`) its first element is `null`. -/
def firstEntry (data : Data) : Option Entry :=
  match data.values with
  | none => none
  | some [] => none
  | some (e :: _) => e

/-- The text of a message handed to `sendTelegram`: the template chosen and the
values interpolated into it. -/
inductive Msg where
  | started
  | indicators (pair : Symbol) (rsi ema : JSNum)
      (tenkan_sen kijun_sen senkou_span_b : Option String)
  | rsiAlert (pair : Symbol) (rsi : JSNum)
  | zoneTriggered (pair : Symbol) (rsi : JSNum) (zone : ℤ)
deriving DecidableEq

/-- The observable events of a run, in order. -/
inductive Event where
  | schedule (expression : String)
  | get (url : String)
  | sendTelegram (msg : Msg)
  | post (url : String) (chat_id : Option String) (text : Msg)
deriving DecidableEq

/-- The network: how the request issued when the log has length `t` settles.
For `post`, `true` is an acknowledgment and `false` a delivery failure. -/
structure Net where
  get : Nat → String → Response
  post : Nat → String → Option String → Msg → Bool

/-- The program state: the variable `alertCount` and the event log. -/
structure State where
  alertCount : Nat
  log : List Event

/-- The state when the script starts: `let alertCount = 0`. -/
def State.init : State := ⟨0, []⟩

/-- How the promise of an `async` function settles. -/
inductive Outcome where
  | fulfilled
  | rejected
deriving DecidableEq

def State.record (s : State) (e : Event) : State := ⟨s.alertCount, s.log ++ [e]⟩

/-! ## The functions of `index.js` -/

def sendTelegram (env : ProcessEnv) (net : Net) (msg : Msg) (s : State) :
    Outcome × State :=
  let s0 := s.record (Event.sendTelegram msg)
  if (JSNum.ofNat s0.alertCount).ge (MAX_DAILY_ALERTS env) then (Outcome.fulfilled, s0)
  else
    let s1 := s0.record (Event.post (TELEGRAM_API env) (CHAT_ID env) msg)
    if net.post s0.log.length (TELEGRAM_API env) (CHAT_ID env) msg then
      (Outcome.fulfilled, ⟨s1.alertCount + 1, s1.log⟩)
    else (Outcome.rejected, s1)

def rsiUrl (env : ProcessEnv) (symbol : Symbol) : String :=
  "https://api.twelvedata.com/rsi?symbol=" ++ symbol ++
    "&interval=1h&time_period=1&series_type=close&apikey=" ++ render (API_KEY env)

def ichimokuUrl (env : ProcessEnv) (symbol : Symbol) : String :=
  "https://api.twelvedata.com/ichimoku?symbol=" ++ symbol ++
    "&interval=1h&tenkan=2&kijun=2&senkou_b=52&apikey=" ++ render (API_KEY env)

def emaUrl (env : ProcessEnv) (symbol : Symbol) : String :=
  "https://api.twelvedata.com/ema?symbol=" ++ symbol ++
    "&interval=1h&time_period=26&series_type=close&apikey=" ++ render (API_KEY env)

/-- The function `getRSI`; the result `none` is `null`. -/
def getRSI (env : ProcessEnv) (net : Net) (symbol : Symbol) (s : State) :
    Option JSNum × State :=
  let url := rsiUrl env symbol
  let s1 := s.record (Event.get url)
  match net.get s.log.length url with
  | Response.rejected => (none, s1)
  | Response.fulfilled none => (none, s1)
  | Response.fulfilled (some data) =>
    let rsi := parseFloat ((firstEntry data).bind Entry.rsi)
    (if rsi.isNaN then none else some rsi, s1)

/-- The function `getIchimoku`; the result `none` is `null`. An element that is
an object is truthy, so `values?.[0] || null` keeps it. -/
def getIchimoku (env : ProcessEnv) (net : Net) (symbol : Symbol) (s : State) :
    Option Entry × State :=
  let url := ichimokuUrl env symbol
  let s1 := s.record (Event.get url)
  match net.get s.log.length url with
  | Response.rejected => (none, s1)
  | Response.fulfilled none => (none, s1)
  | Response.fulfilled (some data) => (firstEntry data, s1)

/-- The function `getEMA`; the result `none` is `null`. -/
def getEMA (env : ProcessEnv) (net : Net) (symbol : Symbol) (s : State) :
    Option JSNum × State :=
  let url := emaUrl env symbol
  let s1 := s.record (Event.get url)
  match net.get s.log.length url with
  | Response.rejected => (none, s1)
  | Response.fulfilled none => (none, s1)
  | Response.fulfilled (some data) =>
    let ema := parseFloat ((firstEntry data).bind Entry.ema)
    (if ema.toBoolean then some ema else none, s1)

def checkAndAlert (env : ProcessEnv) (net : Net) (pair : Symbol) (s : State) :
    Outcome × State :=
  let r1 := getRSI env net pair s
  let r2 := getIchimoku env net pair r1.2
  let r3 := getEMA env net pair r2.2
  match r1.1, r2.1, r3.1 with
  | some rsi, some ichimoku, some ema =>
    let msg := Msg.indicators pair rsi ema ichimoku.tenkan_sen ichimoku.kijun_sen
      ichimoku.senkou_span_b
    let msg := if rsi.lt (JSNum.ofInt 30) || rsi.gt (JSNum.ofInt 70) then
      Msg.rsiAlert pair rsi else msg
    sendTelegram env net msg r3.2
  | _, _, _ => (Outcome.fulfilled, r3.2)

/-- The loop `for (let zone of ZONES)` of `checkZones`, with its `break` after
the first match. -/
def checkZonesLoop (env : ProcessEnv) (net : Net) (pair : Symbol) (rsi : JSNum) :
    List ℤ → State → Outcome × State
  | [], s => (Outcome.fulfilled, s)
  | zone :: rest, s =>
    if rsi.floor = JSNum.ofInt zone then
      sendTelegram env net (Msg.zoneTriggered pair rsi zone) s
    else checkZonesLoop env net pair rsi rest s

def checkZones (env : ProcessEnv) (net : Net) (pair : Symbol) (s : State) :
    Outcome × State :=
  let r := getRSI env net pair s
  match r.1 with
  | none => (Outcome.fulfilled, r.2)
  | some rsi => checkZonesLoop env net pair rsi ZONES r.2

/-- The loop `for (const pair of FOREX_PAIRS) await check(pair)`: a rejection
of the awaited call leaves the loop and rejects the enclosing callback. -/
def forEachPair (check : Symbol → State → Outcome × State) :
    List Symbol → State → Outcome × State
  | [], s => (Outcome.fulfilled, s)
  | pair :: rest, s =>
    match check pair s with
    | (Outcome.fulfilled, s1) => forEachPair check rest s1
    | (Outcome.rejected, s1) => (Outcome.rejected, s1)

/-- The callback scheduled every hour. -/
def hourlyCheck (env : ProcessEnv) (net : Net) (s : State) : Outcome × State :=
  forEachPair (checkAndAlert env net) FOREX_PAIRS s

/-- The callback scheduled every six hours. -/
def zoneCheck (env : ProcessEnv) (net : Net) (s : State) : Outcome × State :=
  forEachPair (checkZones env net) FOREX_PAIRS s

/-- The callback scheduled at midnight: `alertCount = 0`. -/
def midnightReset (s : State) : State := ⟨0, s.log⟩

/-- The startup function run when the script is loaded. -/
def onServerStart (env : ProcessEnv) (net : Net) (s : State) : Outcome × State :=
  match sendTelegram env net Msg.started s with
  | (Outcome.fulfilled, s1) => forEachPair (checkAndAlert env net) FOREX_PAIRS s1
  | (Outcome.rejected, s1) => (Outcome.rejected, s1)

/-- The script from top to bottom: the three `cron.schedule` registrations,
then the startup function. -/
def main (env : ProcessEnv) (net : Net) : Outcome × State :=
  let s := State.init
  let s := s.record (Event.schedule "0 * * * 1-5")
  let s := s.record (Event.schedule "0 */6 * * 1-5")
  let s := s.record (Event.schedule "0 0 * * 1-5")
  onServerStart env net s

/-! ## Observations on the event log -/

def Event.handed : Event → Option Msg
  | Event.sendTelegram msg => some msg
  | _ => none

def Event.posted : Event → Option Msg
  | Event.post _ _ text => some text
  | _ => none

def Event.fetched : Event → Option String
  | Event.get url => some url
  | _ => none

def Event.scheduled : Event → Option String
  | Event.schedule expression => some expression
  | _ => none

/-- The messages handed to the notifier `sendTelegram`, in order. -/
def State.handed (s : State) : List Msg := s.log.filterMap Event.handed

/-- The messages sent out to the Telegram sink, in order. -/
def State.posted (s : State) : List Msg := s.log.filterMap Event.posted

/-- The provider URLs requested, in order. -/
def State.fetched (s : State) : List String := s.log.filterMap Event.fetched

/-- The cron expressions registered, in order. -/
def State.scheduled (s : State) : List String := s.log.filterMap Event.scheduled

/-! ## Drivers and sample inputs -/

/-- Consecutive calls of `sendTelegram`, one per message, the caller going on
to the next call whatever the outcome of the previous one. -/
def sendAll (env : ProcessEnv) (net : Net) (msgs : List Msg) (s : State) : State :=
  msgs.foldl (fun acc msg => (sendTelegram env net msg acc).2) s

/-- One sequentially executed operation on the alert budget: a call of
`sendTelegram`, one of the two scheduled passes, or the midnight reset. -/
inductive Op where
  | send (msg : Msg)
  | hourly
  | zones
  | reset

def Op.run (env : ProcessEnv) (net : Net) : Op → State → State
  | Op.send msg, s => (sendTelegram env net msg s).2
  | Op.hourly, s => (hourlyCheck env net s).2
  | Op.zones, s => (zoneCheck env net s).2
  | Op.reset, s => midnightReset s

def runOps (env : ProcessEnv) (net : Net) (ops : List Op) (s : State) : State :=
  ops.foldl (fun acc op => op.run env net acc) s

/-- A network whose provider answers every request with a one-element series
holding `entry`, and whose sink acknowledges (`ack = true`) or fails every
delivery. -/
def constNet (entry : Entry) (ack : Bool) : Net :=
  ⟨fun _ _ => Response.fulfilled (some ⟨some [some entry]⟩), fun _ _ _ _ => ack⟩

/-- An element with RSI `rsi`, EMA 1.2345 and the Ichimoku values 1.1, 1.2 and
1.3. -/
def sampleEntry (rsi : ℚ) : Entry :=
  ⟨some (JSNum.fin rsi), some (JSNum.fin (12345 / 10000)), some "1.1", some "1.2",
    some "1.3"⟩

/-- A network whose provider rejects every request. -/
def downNet : Net := ⟨fun _ _ => Response.rejected, fun _ _ _ _ => true⟩

/-- A configuration with all credentials set and the ceiling as given. -/
def sampleEnv (max : Option String) : ProcessEnv :=
  ⟨some "demo", some "42", some "123:abc", max⟩

/-- A configuration with every variable unset. -/
def emptyEnv : ProcessEnv := ⟨none, none, none, none⟩

/-- Whether a decimal digit stands at the front of a text. -/
def leadingDigit : List Char → Bool
  | [] => false
  | c :: _ => c.isDigit

/-- Whether no decimal digit stands at the front of a configured value, after
leading white space and one optional sign. -/
def startsWithoutDigit (text : String) : Bool :=
  match text.toList.dropWhile isWhiteSpace with
  | '-' :: rest => !leadingDigit rest
  | '+' :: rest => !leadingDigit rest
  | S => !leadingDigit S

/-! ## Basic facts about the functions -/

section Basic

variable (env : ProcessEnv) (net : Net)

@[simp]
theorem record_alertCount (s : State) (e : Event) :
    (s.record e).alertCount = s.alertCount := rfl

@[simp]
theorem record_log (s : State) (e : Event) :
    (s.record e).log = s.log ++ [e] := rfl

@[simp]
theorem getRSI_state (symbol : Symbol) (s : State) :
    (getRSI env net symbol s).2 = s.record (Event.get (rsiUrl env symbol)) := by
  simp only [getRSI]
  split <;> rfl

@[simp]
theorem getIchimoku_state (symbol : Symbol) (s : State) :
    (getIchimoku env net symbol s).2 = s.record (Event.get (ichimokuUrl env symbol)) := by
  simp only [getIchimoku]
  split <;> rfl

@[simp]
theorem getEMA_state (symbol : Symbol) (s : State) :
    (getEMA env net symbol s).2 = s.record (Event.get (emaUrl env symbol)) := by
  simp only [getEMA]
  split <;> rfl

@[simp]
theorem handed_record_get (s : State) (url : String) :
    (s.record (Event.get url)).handed = s.handed := by
  simp [State.handed, Event.handed]

@[simp]
theorem posted_record_get (s : State) (url : String) :
    (s.record (Event.get url)).posted = s.posted := by
  simp [State.posted, Event.posted]

theorem sendTelegram_handed (msg : Msg) (s : State) :
    (sendTelegram env net msg s).2.handed = s.handed ++ [msg] := by
  unfold sendTelegram
  simp only []
  split
  · simp [State.handed, Event.handed]
  · split <;> simp [State.handed, Event.handed]

theorem checkZonesLoop_handed (pair : Symbol) (rsi : JSNum) (zones : List ℤ) (s : State) :
    (checkZonesLoop env net pair rsi zones s).2.handed = s.handed ++
      (match zones.find? (fun zone => decide (rsi.floor = JSNum.ofInt zone)) with
        | some zone => [Msg.zoneTriggered pair rsi zone]
        | none => []) := by
  induction zones with
  | nil => simp [checkZonesLoop]
  | cons zone rest ih =>
    unfold checkZonesLoop
    by_cases h : rsi.floor = JSNum.ofInt zone
    · simp [h, sendTelegram_handed]
    · simp [h, ih]

theorem checkAndAlert_present (pair : Symbol) (s : State) (rsi ema : JSNum)
    (ichimoku : Entry)
    (hrsi : (getRSI env net pair s).1 = some rsi)
    (hichimoku : (getIchimoku env net pair (getRSI env net pair s).2).1 = some ichimoku)
    (hema : (getEMA env net pair
      (getIchimoku env net pair (getRSI env net pair s).2).2).1 = some ema) :
    (checkAndAlert env net pair s).2.handed = s.handed ++
      [if rsi.lt (JSNum.ofInt 30) || rsi.gt (JSNum.ofInt 70) then Msg.rsiAlert pair rsi
        else Msg.indicators pair rsi ema ichimoku.tenkan_sen ichimoku.kijun_sen
          ichimoku.senkou_span_b] := by
  unfold checkAndAlert
  simp only [hrsi, hichimoku, hema, sendTelegram_handed]
  simp only [getEMA_state, getIchimoku_state, getRSI_state, handed_record_get]

theorem checkAndAlert_skip (pair : Symbol) (s : State)
    (h : (getRSI env net pair s).1 = none ∨
      (getIchimoku env net pair (getRSI env net pair s).2).1 = none ∨
      (getEMA env net pair
        (getIchimoku env net pair (getRSI env net pair s).2).2).1 = none) :
    checkAndAlert env net pair s = (Outcome.fulfilled,
      (getEMA env net pair (getIchimoku env net pair (getRSI env net pair s).2).2).2) := by
  unfold checkAndAlert
  simp only []
  split
  · rename_i h1 h2 h3
    rcases h with h | h | h
    · rw [h] at h1; cases h1
    · rw [h] at h2; cases h2
    · rw [h] at h3; cases h3
  · rfl

end Basic

/-! ## Rule evaluation -/

/-- Claim C1. When the three fetches of `checkAndAlert` all return a value (RSI
`rsi`, an Ichimoku element, EMA `ema`), exactly one message is handed to the
notifier: the RSI Alert when `rsi < 30` or `rsi > 70`, and the full indicator
report otherwise. -/
theorem checkAndAlert_complete (env : ProcessEnv) (net : Net) (pair : Symbol) (s : State)
    (rsi ema : JSNum) (ichimoku : Entry)
    (hrsi : (getRSI env net pair s).1 = some rsi)
    (hichimoku : (getIchimoku env net pair (getRSI env net pair s).2).1 = some ichimoku)
    (hema : (getEMA env net pair
      (getIchimoku env net pair (getRSI env net pair s).2).2).1 = some ema) :
    (checkAndAlert env net pair s).2.handed = s.handed ++
      [match rsi with
        | JSNum.fin r =>
          if r < 30 ∨ 70 < r then Msg.rsiAlert pair rsi
          else Msg.indicators pair rsi ema ichimoku.tenkan_sen ichimoku.kijun_sen
            ichimoku.senkou_span_b
        | JSNum.nan =>
          Msg.indicators pair rsi ema ichimoku.tenkan_sen ichimoku.kijun_sen
            ichimoku.senkou_span_b
        | _ => Msg.rsiAlert pair rsi] := by
  rw [checkAndAlert_present env net pair s rsi ema ichimoku hrsi hichimoku hema]
  congr 2
  cases rsi with
  | nan => simp [JSNum.lt, JSNum.gt, JSNum.ofInt]
  | negInf => simp [JSNum.lt, JSNum.gt, JSNum.ofInt]
  | posInf => simp [JSNum.lt, JSNum.gt, JSNum.ofInt]
  | fin r =>
    by_cases h : r < 30 ∨ 70 < r
    · simp [JSNum.lt, JSNum.gt, JSNum.ofInt, h]
    · simp [JSNum.lt, JSNum.gt, JSNum.ofInt, h]

/-- Witness for C1: RSI 25.37 with EMA 1.2345 and Ichimoku 1.1, 1.2, 1.3 gives
the RSI Alert and no full report; RSI 30 and RSI 70 give the full report. -/
theorem checkAndAlert_complete_witness :
    (checkAndAlert (sampleEnv none) (constNet (sampleEntry (2537 / 100)) true) "EURUSD"
        State.init).2.handed = [Msg.rsiAlert "EURUSD" (JSNum.fin (2537 / 100))] ∧
      (checkAndAlert (sampleEnv none) (constNet (sampleEntry 30) true) "EURUSD"
        State.init).2.handed = [Msg.indicators "EURUSD" (JSNum.fin 30)
          (JSNum.fin (12345 / 10000)) (some "1.1") (some "1.2") (some "1.3")] ∧
      (checkAndAlert (sampleEnv none) (constNet (sampleEntry 70) true) "EURUSD"
        State.init).2.handed = [Msg.indicators "EURUSD" (JSNum.fin 70)
          (JSNum.fin (12345 / 10000)) (some "1.1") (some "1.2") (some "1.3")] := by
  have key : ∀ r : ℚ, _ := fun r =>
    checkAndAlert_complete (sampleEnv none) (constNet (sampleEntry r) true) "EURUSD"
      State.init (JSNum.fin r) (JSNum.fin (12345 / 10000)) (sampleEntry r)
      (by simp [getRSI, constNet, sampleEntry, firstEntry, parseFloat, JSNum.isNaN])
      (by simp [getIchimoku, constNet, firstEntry])
      (by simp [getEMA, constNet, sampleEntry, firstEntry, parseFloat, JSNum.toBoolean])
  refine ⟨?_, ?_, ?_⟩
  · rw [key]; norm_num [State.handed, State.init]
  · rw [key]; norm_num [State.handed, State.init, sampleEntry]
  · rw [key]; norm_num [State.handed, State.init, sampleEntry]

theorem find_floor_zone (r : ℚ) (zones : List ℤ) :
    zones.find? (fun zone => decide ((JSNum.fin r).floor = JSNum.ofInt zone)) =
      if ⌊r⌋ ∈ zones then some ⌊r⌋ else none := by
  induction zones with
  | nil => simp
  | cons zone rest ih =>
    by_cases h : ⌊r⌋ = zone
    · simp [List.find?, JSNum.floor, JSNum.ofInt, h]
    · simp only [JSNum.floor, JSNum.ofInt, JSNum.fin.injEq, Int.cast_inj] at ih
      simp [List.find?, JSNum.floor, JSNum.ofInt, h, ih]

/-- Claim C2. When `getRSI` returns the value `rsi`, `checkZones` hands a zone
message to the notifier exactly when `floor(rsi)` is one of 10, 20, 30, 80, 90,
100; the zone named is `floor(rsi)`; and at most one message is handed. -/
theorem checkZones_zone (env : ProcessEnv) (net : Net) (pair : Symbol) (s : State)
    (rsi : JSNum) (hrsi : (getRSI env net pair s).1 = some rsi) :
    (checkZones env net pair s).2.handed = s.handed ++
      (match rsi with
        | JSNum.fin r =>
          if ⌊r⌋ ∈ ZONES then [Msg.zoneTriggered pair rsi ⌊r⌋] else []
        | _ => []) := by
  unfold checkZones
  simp only [hrsi, checkZonesLoop_handed, getRSI_state, handed_record_get]
  congr 1
  cases rsi with
  | nan => simp [ZONES, JSNum.floor, JSNum.ofInt]
  | negInf => simp [ZONES, JSNum.floor, JSNum.ofInt]
  | posInf => simp [ZONES, JSNum.floor, JSNum.ofInt]
  | fin r =>
    rw [find_floor_zone]
    by_cases h : ⌊r⌋ ∈ ZONES <;> simp [h]

theorem floor_306 : ⌊(306 / 10 : ℚ)⌋ = 30 := by
  rw [Int.floor_eq_iff]; norm_num

theorem floor_3099 : ⌊(3099 / 100 : ℚ)⌋ = 30 := by
  rw [Int.floor_eq_iff]; norm_num

/-- Witness for C2: RSI 30.6 and RSI 30.99 both name zone 30, and RSI 31.0
produces no message. -/
theorem checkZones_zone_witness :
    (checkZones (sampleEnv none) (constNet (sampleEntry (306 / 10)) true) "EURUSD"
        State.init).2.handed =
        [Msg.zoneTriggered "EURUSD" (JSNum.fin (306 / 10)) 30] ∧
      (checkZones (sampleEnv none) (constNet (sampleEntry (3099 / 100)) true) "EURUSD"
        State.init).2.handed =
        [Msg.zoneTriggered "EURUSD" (JSNum.fin (3099 / 100)) 30] ∧
      (checkZones (sampleEnv none) (constNet (sampleEntry 31) true) "EURUSD"
        State.init).2.handed = [] := by
  have key : ∀ r : ℚ, _ := fun r =>
    checkZones_zone (sampleEnv none) (constNet (sampleEntry r) true) "EURUSD"
      State.init (JSNum.fin r)
      (by simp [getRSI, constNet, sampleEntry, firstEntry, parseFloat, JSNum.isNaN])
  refine ⟨?_, ?_, ?_⟩
  · rw [key]; simp [State.handed, State.init, floor_306, ZONES]
  · rw [key]; simp [State.handed, State.init, floor_3099, ZONES]
  · rw [key]; simp [State.handed, State.init, ZONES]

/-- Claim C3, counterexample. The first Ichimoku element lacks the property
`senkou_span_b`, yet `checkAndAlert` hands the full report to the notifier and
the report is sent out. -/
theorem checkAndAlert_missing_field :
    (getIchimoku (sampleEnv none)
        (constNet ⟨some (JSNum.fin 55), some (JSNum.fin (12345 / 10000)), some "1.1",
          some "1.2", none⟩ true) "EURUSD"
        (getRSI (sampleEnv none)
          (constNet ⟨some (JSNum.fin 55), some (JSNum.fin (12345 / 10000)), some "1.1",
            some "1.2", none⟩ true) "EURUSD" State.init).2).1 =
        some ⟨some (JSNum.fin 55), some (JSNum.fin (12345 / 10000)), some "1.1",
          some "1.2", none⟩ ∧
      (checkAndAlert (sampleEnv none)
        (constNet ⟨some (JSNum.fin 55), some (JSNum.fin (12345 / 10000)), some "1.1",
          some "1.2", none⟩ true) "EURUSD" State.init).2.handed =
        [Msg.indicators "EURUSD" (JSNum.fin 55) (JSNum.fin (12345 / 10000)) (some "1.1")
          (some "1.2") none] := by
  refine ⟨by simp [getIchimoku, constNet, firstEntry], ?_⟩
  rw [checkAndAlert_present (sampleEnv none) _ "EURUSD" State.init (JSNum.fin 55)
    (JSNum.fin (12345 / 10000))
    ⟨some (JSNum.fin 55), some (JSNum.fin (12345 / 10000)), some "1.1", some "1.2", none⟩
    (by simp [getRSI, constNet, firstEntry, parseFloat, JSNum.isNaN])
    (by simp [getIchimoku, constNet, firstEntry])
    (by simp [getEMA, constNet, firstEntry, parseFloat, JSNum.toBoolean])]
  norm_num [State.handed, State.init, JSNum.lt, JSNum.gt, JSNum.ofInt]

/-- Claim C3, amended. When `getRSI` returns null, `getIchimoku` returns null
(the Ichimoku series has no first element) or `getEMA` returns null,
`checkAndAlert` returns normally, hands no message to the notifier and sends
nothing out. -/
theorem checkAndAlert_absent (env : ProcessEnv) (net : Net) (pair : Symbol) (s : State)
    (h : (getRSI env net pair s).1 = none ∨
      (getIchimoku env net pair (getRSI env net pair s).2).1 = none ∨
      (getEMA env net pair
        (getIchimoku env net pair (getRSI env net pair s).2).2).1 = none) :
    (checkAndAlert env net pair s).1 = Outcome.fulfilled ∧
      (checkAndAlert env net pair s).2.handed = s.handed ∧
      (checkAndAlert env net pair s).2.posted = s.posted ∧
      (checkAndAlert env net pair s).2.alertCount = s.alertCount := by
  rw [checkAndAlert_skip env net pair s h]
  simp

/-- Witness for C3 (amended): the provider delivers no Ichimoku series. -/
theorem checkAndAlert_absent_witness :
    (checkAndAlert (sampleEnv none) downNet "EURUSD" State.init).1 = Outcome.fulfilled ∧
      (checkAndAlert (sampleEnv none) downNet "EURUSD" State.init).2.handed =
        State.init.handed ∧
      (checkAndAlert (sampleEnv none) downNet "EURUSD" State.init).2.posted =
        State.init.posted ∧
      (checkAndAlert (sampleEnv none) downNet "EURUSD" State.init).2.alertCount =
        State.init.alertCount :=
  checkAndAlert_absent (sampleEnv none) downNet "EURUSD" State.init
    (Or.inr (Or.inl (by simp [getIchimoku, downNet])))

/-! ## The values the ceiling can take -/

theorem roundToDouble_exact (n : Nat) (h : n ≤ 2 ^ 53) : roundToDouble n = some n := by
  rcases Nat.lt_or_ge n (2 ^ 53) with hlt | hge
  · have he : excessBits n n = 0 := by
      cases n with
      | zero => rfl
      | succ k =>
        show (if k + 1 < 2 ^ 53 then 0 else excessBits k ((k + 1) / 2) + 1) = 0
        rw [if_pos hlt]
    simp [roundToDouble, he, Nat.mod_one]
  · have hn : n = 2 ^ 53 := Nat.le_antisymm h hge
    subst hn
    decide

theorem parseInt_shape (input : Option String) :
    parseInt input = JSNum.nan ∨ parseInt input = JSNum.posInf ∨
      parseInt input = JSNum.negInf ∨ ∃ z : ℤ, parseInt input = JSNum.ofInt z := by
  unfold parseInt
  simp only []
  split
  · exact Or.inl rfl
  · split
    · exact Or.inr (Or.inr (Or.inr ⟨_, rfl⟩))
    · split
      · exact Or.inr (Or.inr (Or.inl rfl))
      · exact Or.inr (Or.inl rfl)

/-- The ceiling is `Infinity`, `-Infinity` or an integer other than zero. -/
theorem MAX_DAILY_ALERTS_shape (env : ProcessEnv) :
    MAX_DAILY_ALERTS env = JSNum.posInf ∨ MAX_DAILY_ALERTS env = JSNum.negInf ∨
      ∃ z : ℤ, z ≠ 0 ∧ MAX_DAILY_ALERTS env = JSNum.ofInt z := by
  unfold MAX_DAILY_ALERTS
  simp only []
  rcases parseInt_shape env.MAX_DAILY_ALERTS with h | h | h | ⟨z, h⟩
  · rw [h]
    exact Or.inr (Or.inr ⟨800, by decide, by simp [JSNum.toBoolean]⟩)
  · rw [h]
    exact Or.inl (by simp [JSNum.toBoolean])
  · rw [h]
    exact Or.inr (Or.inl (by simp [JSNum.toBoolean]))
  · rw [h]
    by_cases hz : z = 0
    · exact Or.inr (Or.inr ⟨800, by decide, by simp [JSNum.toBoolean, JSNum.ofInt, hz]⟩)
    · exact Or.inr (Or.inr ⟨z, hz, by simp [JSNum.toBoolean, JSNum.ofInt, hz]⟩)

theorem ge_ofNat_ofInt (c : Nat) (z : ℤ) :
    (JSNum.ofNat c).ge (JSNum.ofInt z) = decide (z ≤ (c : ℤ)) := by
  have h : ((c : ℚ) < (z : ℚ)) ↔ (c : ℤ) < z := by
    rw [← Int.cast_natCast c, Int.cast_lt]
  by_cases hz : z ≤ (c : ℤ)
  · have hn : ¬ (c : ℤ) < z := not_lt.mpr hz
    simp [JSNum.ge, JSNum.lt, JSNum.isNaN, JSNum.ofNat, JSNum.ofInt, h, hn, hz]
  · have hn : (c : ℤ) < z := not_le.mp hz
    simp [JSNum.ge, JSNum.lt, JSNum.isNaN, JSNum.ofNat, JSNum.ofInt, h, hn, hz]

theorem le_ofNat_ofInt (c : Nat) (z : ℤ) :
    (JSNum.ofNat c).le (JSNum.ofInt z) = decide ((c : ℤ) ≤ z) := by
  have h : ((z : ℚ) < (c : ℚ)) ↔ z < (c : ℤ) := by
    rw [← Int.cast_natCast c, Int.cast_lt]
  by_cases hz : (c : ℤ) ≤ z
  · have hn : ¬ z < (c : ℤ) := not_lt.mpr hz
    simp [JSNum.le, JSNum.lt, JSNum.isNaN, JSNum.ofNat, JSNum.ofInt, h, hn, hz]
  · have hn : z < (c : ℤ) := not_le.mp hz
    simp [JSNum.le, JSNum.lt, JSNum.isNaN, JSNum.ofNat, JSNum.ofInt, h, hn, hz]

theorem lt_ofNat_ofInt (c : Nat) (z : ℤ) :
    (JSNum.ofNat c).lt (JSNum.ofInt z) = decide ((c : ℤ) < z) := by
  have h : ((c : ℚ) < (z : ℚ)) ↔ (c : ℤ) < z := by
    rw [← Int.cast_natCast c, Int.cast_lt]
  by_cases hz : (c : ℤ) < z <;> simp [JSNum.lt, JSNum.ofNat, JSNum.ofInt, h, hz]

/-- The gate test `alertCount >= MAX_DAILY_ALERTS` fails exactly when
`alertCount < MAX_DAILY_ALERTS`, the ceiling never being `NaN`. -/
theorem gate_open_iff (env : ProcessEnv) (c : Nat) :
    (JSNum.ofNat c).ge (MAX_DAILY_ALERTS env) = false ↔
      (JSNum.ofNat c).lt (MAX_DAILY_ALERTS env) = true := by
  rcases MAX_DAILY_ALERTS_shape env with h | h | ⟨z, _, h⟩
  · rw [h]; simp [JSNum.ge, JSNum.lt, JSNum.isNaN, JSNum.ofNat]
  · rw [h]; simp [JSNum.ge, JSNum.lt, JSNum.isNaN, JSNum.ofNat]
  · rw [h, ge_ofNat_ofInt, lt_ofNat_ofInt]
    simp

/-- Below the ceiling there is room for one more: if `c < MAX_DAILY_ALERTS`
then `c + 1 <= MAX_DAILY_ALERTS`, the ceiling being an integer or infinite. -/
theorem succ_le_of_gate_open (env : ProcessEnv) (c : Nat)
    (h : (JSNum.ofNat c).ge (MAX_DAILY_ALERTS env) = false) :
    (JSNum.ofNat (c + 1)).le (MAX_DAILY_ALERTS env) = true := by
  rcases MAX_DAILY_ALERTS_shape env with hm | hm | ⟨z, _, hm⟩
  · rw [hm]; simp [JSNum.le, JSNum.lt, JSNum.isNaN, JSNum.ofNat]
  · rw [hm] at h; simp [JSNum.ge, JSNum.lt, JSNum.isNaN, JSNum.ofNat] at h
  · rw [hm] at h ⊢
    rw [ge_ofNat_ofInt] at h
    rw [le_ofNat_ofInt]
    simp only [decide_eq_false_iff_not, not_le] at h
    simp only [decide_eq_true_eq]
    push_cast
    omega

/-- A count that is within the ceiling after `k + 1` more steps is below it
now. -/
theorem gate_open_of_le (env : ProcessEnv) (c k : Nat)
    (h : (JSNum.ofNat (c + (k + 1))).le (MAX_DAILY_ALERTS env) = true) :
    (JSNum.ofNat c).ge (MAX_DAILY_ALERTS env) = false := by
  rcases MAX_DAILY_ALERTS_shape env with hm | hm | ⟨z, _, hm⟩
  · rw [hm]; simp [JSNum.ge, JSNum.lt, JSNum.isNaN, JSNum.ofNat]
  · rw [hm] at h; simp [JSNum.le, JSNum.lt, JSNum.isNaN, JSNum.ofNat] at h
  · rw [hm] at h ⊢
    rw [le_ofNat_ofInt] at h
    rw [ge_ofNat_ofInt]
    simp only [decide_eq_true_eq] at h
    simp only [decide_eq_false_iff_not, not_le]
    push_cast at h
    omega

/-! ## The notifier and the alert budget -/

/-- Claim C7. A call of `sendTelegram` changes `alertCount` only on a successful
acknowledgment: it becomes `alertCount + 1` when the gate allows the send
(`alertCount < MAX_DAILY_ALERTS`) and the sink acknowledges it, and it is
unchanged otherwise; the promise is rejected exactly when the gate allows the
send and the delivery fails; a request goes out exactly when the gate allows
the send. -/
theorem sendTelegram_count (env : ProcessEnv) (net : Net) (msg : Msg) (s : State) :
    (sendTelegram env net msg s).2.alertCount =
        (if (JSNum.ofNat s.alertCount).lt (MAX_DAILY_ALERTS env) = true ∧
            net.post (s.log.length + 1) (TELEGRAM_API env) (CHAT_ID env) msg = true
          then s.alertCount + 1 else s.alertCount) ∧
      ((sendTelegram env net msg s).1 = Outcome.rejected ↔
        ((JSNum.ofNat s.alertCount).lt (MAX_DAILY_ALERTS env) = true ∧
          net.post (s.log.length + 1) (TELEGRAM_API env) (CHAT_ID env) msg = false)) ∧
      (sendTelegram env net msg s).2.posted =
        (if (JSNum.ofNat s.alertCount).lt (MAX_DAILY_ALERTS env) = true then
          s.posted ++ [msg]
          else s.posted) := by
  unfold sendTelegram
  cases hgate : (JSNum.ofNat s.alertCount).ge (MAX_DAILY_ALERTS env)
  · have hlt : (JSNum.ofNat s.alertCount).lt (MAX_DAILY_ALERTS env) = true :=
      (gate_open_iff env s.alertCount).mp hgate
    cases hack : net.post (s.log.length + 1) (TELEGRAM_API env) (CHAT_ID env) msg <;>
      simp [hgate, hlt, hack, State.posted, Event.posted]
  · have hnot : ¬ (JSNum.ofNat s.alertCount).lt (MAX_DAILY_ALERTS env) = true := by
      intro hlt
      rw [(gate_open_iff env s.alertCount).mpr hlt] at hgate
      cases hgate
    simp [hgate, hnot, State.posted, Event.posted]

theorem MAX_DAILY_ALERTS_ne_zero (env : ProcessEnv) :
    MAX_DAILY_ALERTS env ≠ JSNum.ofNat 0 := by
  intro h0
  rcases MAX_DAILY_ALERTS_shape env with h | h | ⟨z, hz, h⟩
  · rw [h] at h0; cases h0
  · rw [h] at h0; cases h0
  · rw [h] at h0
    simp only [JSNum.ofInt, JSNum.ofNat, JSNum.fin.injEq, Nat.cast_zero,
      Int.cast_eq_zero] at h0
    exact hz h0

theorem sendTelegram_allowed (env : ProcessEnv) (net : Net) (msg : Msg) (s : State)
    (hgate : (JSNum.ofNat s.alertCount).ge (MAX_DAILY_ALERTS env) = false)
    (hack : net.post (s.log.length + 1) (TELEGRAM_API env) (CHAT_ID env) msg = true) :
    sendTelegram env net msg s = (Outcome.fulfilled, ⟨s.alertCount + 1,
      s.log ++ [Event.sendTelegram msg] ++
        [Event.post (TELEGRAM_API env) (CHAT_ID env) msg]⟩) := by
  unfold sendTelegram
  simp [hgate, hack]

theorem sendTelegram_denied (env : ProcessEnv) (net : Net) (msg : Msg) (s : State)
    (hgate : (JSNum.ofNat s.alertCount).ge (MAX_DAILY_ALERTS env) = true) :
    sendTelegram env net msg s =
      (Outcome.fulfilled, s.record (Event.sendTelegram msg)) := by
  unfold sendTelegram
  simp [hgate]

theorem sendAll_acknowledged (env : ProcessEnv) (net : Net)
    (hack : ∀ t url chat text, net.post t url chat text = true) (msgs : List Msg) :
    ∀ s : State,
      (JSNum.ofNat (s.alertCount + msgs.length)).le (MAX_DAILY_ALERTS env) = true →
      (sendAll env net msgs s).alertCount = s.alertCount + msgs.length ∧
        (sendAll env net msgs s).posted = s.posted ++ msgs := by
  induction msgs with
  | nil => intro s _; simp [sendAll]
  | cons msg rest ih =>
    intro s hle
    simp only [List.length_cons] at hle
    have hgate := gate_open_of_le env s.alertCount rest.length hle
    have hstep := sendTelegram_allowed env net msg s hgate (hack _ _ _ _)
    have hrest := ih (sendTelegram env net msg s).2 (by
      rw [hstep]
      have harith : s.alertCount + 1 + rest.length = s.alertCount + (rest.length + 1) := by
        omega
      simp only []
      rw [harith]
      exact hle)
    have hunfold : sendAll env net (msg :: rest) s =
        sendAll env net rest (sendTelegram env net msg s).2 := rfl
    rw [hunfold, hrest.1, hrest.2, hstep]
    constructor
    · simp only [List.length_cons]; omega
    · simp [State.posted, Event.posted]

/-- Claim C4. Starting from `alertCount = 0` with the ceiling equal to the number
of messages in `msgs`, and a sink that acknowledges every delivery: all of
`msgs` are sent out and `alertCount` reaches the ceiling; the next call of
`sendTelegram` is denied, sends nothing out and leaves `alertCount` at the
ceiling; and after the midnight reset a call of `sendTelegram` sends its
message out again. -/
theorem gate_after_max (env : ProcessEnv) (net : Net) (msgs : List Msg) (msg : Msg)
    (hack : ∀ t url chat text, net.post t url chat text = true)
    (hmax : MAX_DAILY_ALERTS env = JSNum.ofNat msgs.length) :
    (sendAll env net msgs State.init).alertCount = msgs.length ∧
      (sendAll env net msgs State.init).posted = msgs ∧
      (sendTelegram env net msg (sendAll env net msgs State.init)).1 =
        Outcome.fulfilled ∧
      (sendTelegram env net msg (sendAll env net msgs State.init)).2.posted = msgs ∧
      (sendTelegram env net msg (sendAll env net msgs State.init)).2.alertCount =
        msgs.length ∧
      (midnightReset
        (sendTelegram env net msg (sendAll env net msgs State.init)).2).alertCount = 0 ∧
      (sendTelegram env net msg (midnightReset
        (sendTelegram env net msg (sendAll env net msgs State.init)).2)).2.posted =
        msgs ++ [msg] ∧
      (sendTelegram env net msg (midnightReset
        (sendTelegram env net msg (sendAll env net msgs State.init)).2)).2.alertCount =
        1 := by
  have hself : ∀ n : Nat, (JSNum.ofNat n).le (JSNum.ofNat n) = true := by
    intro n; simp [JSNum.le, JSNum.lt, JSNum.isNaN, JSNum.ofNat]
  have hselfge : ∀ n : Nat, (JSNum.ofNat n).ge (JSNum.ofNat n) = true := by
    intro n; simp [JSNum.ge, JSNum.lt, JSNum.isNaN, JSNum.ofNat]
  have hall := sendAll_acknowledged env net hack msgs State.init (by
    rw [hmax]; simpa [State.init] using hself msgs.length)
  have hcount : (sendAll env net msgs State.init).alertCount = msgs.length := by
    rw [hall.1]; simp [State.init]
  have hposted : (sendAll env net msgs State.init).posted = msgs := by
    rw [hall.2]; simp [State.init, State.posted]
  have hdenied := sendTelegram_denied env net msg (sendAll env net msgs State.init)
    (by rw [hcount, hmax]; exact hselfge _)
  have hpos : 0 < msgs.length := by
    rcases Nat.eq_zero_or_pos msgs.length with h0 | h0
    · exact absurd (by rw [hmax, h0]) (MAX_DAILY_ALERTS_ne_zero env)
    · exact h0
  have hopen : (JSNum.ofNat 0).ge (MAX_DAILY_ALERTS env) = false := by
    rw [hmax]
    have hq : (0 : ℚ) < (msgs.length : ℚ) := by exact_mod_cast hpos
    simp [JSNum.ge, JSNum.lt, JSNum.isNaN, JSNum.ofNat, hq]
  have hagain := sendTelegram_allowed env net msg
    (midnightReset (sendTelegram env net msg (sendAll env net msgs State.init)).2)
    (by simpa [midnightReset] using hopen) (hack _ _ _ _)
  refine ⟨hcount, hposted, ?_, ?_, ?_, rfl, ?_, ?_⟩
  · rw [hdenied]
  · rw [hdenied]; simp [State.posted, Event.posted] ; exact hposted
  · rw [hdenied]; simpa using hcount
  · rw [hagain, hdenied]
    simp [State.posted, Event.posted, midnightReset]
    exact hposted
  · rw [hagain]; rfl

/-- Witness for C4: ceiling 2, three consecutive acknowledged calls; the third
sends nothing out and the count stays 2. -/
theorem gate_after_max_witness :
    (sendAll (sampleEnv (some "2")) (constNet (sampleEntry 55) true)
        [Msg.started, Msg.rsiAlert "EURUSD" (JSNum.fin 25)] State.init).alertCount = 2 ∧
      (sendTelegram (sampleEnv (some "2")) (constNet (sampleEntry 55) true)
        (Msg.rsiAlert "GBPUSD" (JSNum.fin 75))
        (sendAll (sampleEnv (some "2")) (constNet (sampleEntry 55) true)
          [Msg.started, Msg.rsiAlert "EURUSD" (JSNum.fin 25)] State.init)).2.posted =
        [Msg.started, Msg.rsiAlert "EURUSD" (JSNum.fin 25)] ∧
      (sendTelegram (sampleEnv (some "2")) (constNet (sampleEntry 55) true)
        (Msg.rsiAlert "GBPUSD" (JSNum.fin 75))
        (sendAll (sampleEnv (some "2")) (constNet (sampleEntry 55) true)
          [Msg.started, Msg.rsiAlert "EURUSD" (JSNum.fin 25)] State.init)).2.alertCount =
        2 := by
  have h := gate_after_max (sampleEnv (some "2")) (constNet (sampleEntry 55) true)
    [Msg.started, Msg.rsiAlert "EURUSD" (JSNum.fin 25)]
    (Msg.rsiAlert "GBPUSD" (JSNum.fin 75)) (fun _ _ _ _ => rfl) (by decide)
  exact ⟨h.1, h.2.2.2.1, h.2.2.2.2.1⟩

/-! ## The ceiling invariant -/

theorem sendTelegram_le_max (env : ProcessEnv) (net : Net) (msg : Msg) (s : State)
    (h : (JSNum.ofNat s.alertCount).le (MAX_DAILY_ALERTS env) = true) :
    (JSNum.ofNat (sendTelegram env net msg s).2.alertCount).le (MAX_DAILY_ALERTS env) =
      true := by
  unfold sendTelegram
  simp only [record_alertCount, record_log]
  cases hgate : (JSNum.ofNat s.alertCount).ge (MAX_DAILY_ALERTS env)
  · simp only [Bool.false_eq_true, if_false]
    split
    · exact succ_le_of_gate_open env s.alertCount hgate
    · exact h
  · simpa using h

theorem checkAndAlert_le_max (env : ProcessEnv) (net : Net) (pair : Symbol) (s : State)
    (h : (JSNum.ofNat s.alertCount).le (MAX_DAILY_ALERTS env) = true) :
    (JSNum.ofNat (checkAndAlert env net pair s).2.alertCount).le (MAX_DAILY_ALERTS env) =
      true := by
  unfold checkAndAlert
  simp only []
  split
  · apply sendTelegram_le_max
    simpa using h
  · simpa using h

theorem checkZonesLoop_le_max (env : ProcessEnv) (net : Net) (pair : Symbol)
    (rsi : JSNum) (zones : List ℤ) (s : State)
    (h : (JSNum.ofNat s.alertCount).le (MAX_DAILY_ALERTS env) = true) :
    (JSNum.ofNat (checkZonesLoop env net pair rsi zones s).2.alertCount).le
      (MAX_DAILY_ALERTS env) = true := by
  induction zones with
  | nil => simpa [checkZonesLoop] using h
  | cons zone rest ih =>
    unfold checkZonesLoop
    split
    · exact sendTelegram_le_max env net _ s h
    · exact ih

theorem checkZones_le_max (env : ProcessEnv) (net : Net) (pair : Symbol) (s : State)
    (h : (JSNum.ofNat s.alertCount).le (MAX_DAILY_ALERTS env) = true) :
    (JSNum.ofNat (checkZones env net pair s).2.alertCount).le (MAX_DAILY_ALERTS env) =
      true := by
  unfold checkZones
  simp only []
  split
  · simpa using h
  · apply checkZonesLoop_le_max
    simpa using h

theorem forEachPair_preserves (check : Symbol → State → Outcome × State)
    (P : State → Prop) (hcheck : ∀ pair s, P s → P (check pair s).2)
    (pairs : List Symbol) : ∀ s, P s → P (forEachPair check pairs s).2 := by
  induction pairs with
  | nil => intro s hs; exact hs
  | cons pair rest ih =>
    intro s hs
    have hstep := hcheck pair s hs
    unfold forEachPair
    split
    · rename_i s1 heq
      rw [heq] at hstep
      exact ih s1 hstep
    · rename_i s1 heq
      rw [heq] at hstep
      exact hstep

theorem Op_run_le_max (env : ProcessEnv) (net : Net)
    (hmax : (JSNum.ofNat 0).le (MAX_DAILY_ALERTS env) = true) (op : Op) (s : State)
    (h : (JSNum.ofNat s.alertCount).le (MAX_DAILY_ALERTS env) = true) :
    (JSNum.ofNat (op.run env net s).alertCount).le (MAX_DAILY_ALERTS env) = true := by
  cases op with
  | send msg => exact sendTelegram_le_max env net msg s h
  | hourly =>
    exact forEachPair_preserves (checkAndAlert env net)
      (fun st => (JSNum.ofNat st.alertCount).le (MAX_DAILY_ALERTS env) = true)
      (fun pair st hst => checkAndAlert_le_max env net pair st hst) FOREX_PAIRS s h
  | zones =>
    exact forEachPair_preserves (checkZones env net)
      (fun st => (JSNum.ofNat st.alertCount).le (MAX_DAILY_ALERTS env) = true)
      (fun pair st hst => checkZones_le_max env net pair st hst) FOREX_PAIRS s h
  | reset => simpa [Op.run, midnightReset, JSNum.ofNat, JSNum.ofInt] using hmax

/-- Claim C5, counterexample. The configured value `-5` yields the ceiling `-5`,
and already at startup, before any operation, `alertCount = 0` exceeds it:
`alertCount <= MAX_DAILY_ALERTS` is false. -/
theorem ceiling_negative :
    MAX_DAILY_ALERTS (sampleEnv (some "-5")) = JSNum.ofInt (-5) ∧
      (JSNum.ofNat (runOps (sampleEnv (some "-5")) downNet [] State.init).alertCount).le
        (MAX_DAILY_ALERTS (sampleEnv (some "-5"))) = false := by
  have hmax : MAX_DAILY_ALERTS (sampleEnv (some "-5")) = JSNum.ofInt (-5) := by decide
  refine ⟨hmax, ?_⟩
  rw [hmax, le_ofNat_ofInt]
  decide

/-- Claim C5, amended. For every configuration whose ceiling is not negative,
starting from `alertCount = 0`, after every finite sequence of sequentially
executed operations (calls of `sendTelegram` whatever the sink answers, hourly
and zone passes, midnight resets), `alertCount <= MAX_DAILY_ALERTS` holds. -/
theorem alertCount_le_max (env : ProcessEnv) (net : Net) (ops : List Op)
    (hmax : (JSNum.ofNat 0).le (MAX_DAILY_ALERTS env) = true) :
    (JSNum.ofNat (runOps env net ops State.init).alertCount).le (MAX_DAILY_ALERTS env) =
      true := by
  have key : ∀ (l : List Op) (s : State),
      (JSNum.ofNat s.alertCount).le (MAX_DAILY_ALERTS env) = true →
      (JSNum.ofNat (runOps env net l s).alertCount).le (MAX_DAILY_ALERTS env) = true := by
    intro l
    induction l with
    | nil => intro s hs; exact hs
    | cons op rest ih =>
      intro s hs
      exact ih (op.run env net s) (Op_run_le_max env net hmax op s hs)
  exact key ops State.init (by simpa [State.init, JSNum.ofNat, JSNum.ofInt] using hmax)

/-- Witness for C5 (amended): ceiling 2, three acknowledged sends, a reset and
one more send. -/
theorem alertCount_le_max_witness :
    (JSNum.ofNat 0).le (MAX_DAILY_ALERTS (sampleEnv (some "2"))) = true ∧
      (JSNum.ofNat (runOps (sampleEnv (some "2")) (constNet (sampleEntry 55) true)
        [Op.send Msg.started, Op.send Msg.started, Op.send Msg.started, Op.reset,
          Op.send Msg.started] State.init).alertCount).le
        (MAX_DAILY_ALERTS (sampleEnv (some "2"))) = true :=
  ⟨by decide, alertCount_le_max (sampleEnv (some "2")) (constNet (sampleEntry 55) true)
    [Op.send Msg.started, Op.send Msg.started, Op.send Msg.started, Op.reset,
      Op.send Msg.started] (by decide)⟩

/-! ## Passes over the symbol list -/

theorem sendTelegram_fetched (env : ProcessEnv) (net : Net) (msg : Msg) (s : State) :
    (sendTelegram env net msg s).2.fetched = s.fetched := by
  unfold sendTelegram
  simp only []
  split
  · simp [State.fetched, Event.fetched]
  · split <;> simp [State.fetched, Event.fetched]

theorem fetched_record_get (s : State) (url : String) :
    (s.record (Event.get url)).fetched = s.fetched ++ [url] := by
  simp [State.fetched, Event.fetched]

theorem checkAndAlert_fetched (env : ProcessEnv) (net : Net) (pair : Symbol) (s : State) :
    (checkAndAlert env net pair s).2.fetched =
      s.fetched ++ [rsiUrl env pair, ichimokuUrl env pair, emaUrl env pair] := by
  unfold checkAndAlert
  simp only []
  split <;>
    simp [sendTelegram_fetched, fetched_record_get]

theorem checkZonesLoop_fetched (env : ProcessEnv) (net : Net) (pair : Symbol)
    (rsi : JSNum) (zones : List ℤ) (s : State) :
    (checkZonesLoop env net pair rsi zones s).2.fetched = s.fetched := by
  induction zones with
  | nil => rfl
  | cons zone rest ih =>
    unfold checkZonesLoop
    split
    · exact sendTelegram_fetched env net _ s
    · exact ih

theorem checkZones_fetched (env : ProcessEnv) (net : Net) (pair : Symbol) (s : State) :
    (checkZones env net pair s).2.fetched = s.fetched ++ [rsiUrl env pair] := by
  unfold checkZones
  simp only []
  split <;> simp [checkZonesLoop_fetched, fetched_record_get]

theorem sendTelegram_acknowledged (env : ProcessEnv) (net : Net)
    (hack : ∀ t url chat text, net.post t url chat text = true) (msg : Msg) (s : State) :
    (sendTelegram env net msg s).1 = Outcome.fulfilled := by
  unfold sendTelegram
  simp only []
  split
  · rfl
  · simp [hack]

theorem checkAndAlert_acknowledged (env : ProcessEnv) (net : Net)
    (hack : ∀ t url chat text, net.post t url chat text = true) (pair : Symbol)
    (s : State) : (checkAndAlert env net pair s).1 = Outcome.fulfilled := by
  unfold checkAndAlert
  simp only []
  split
  · exact sendTelegram_acknowledged env net hack _ _
  · rfl

theorem checkZonesLoop_acknowledged (env : ProcessEnv) (net : Net)
    (hack : ∀ t url chat text, net.post t url chat text = true) (pair : Symbol)
    (rsi : JSNum) (zones : List ℤ) (s : State) :
    (checkZonesLoop env net pair rsi zones s).1 = Outcome.fulfilled := by
  induction zones with
  | nil => rfl
  | cons zone rest ih =>
    unfold checkZonesLoop
    split
    · exact sendTelegram_acknowledged env net hack _ _
    · exact ih

theorem checkZones_acknowledged (env : ProcessEnv) (net : Net)
    (hack : ∀ t url chat text, net.post t url chat text = true) (pair : Symbol)
    (s : State) : (checkZones env net pair s).1 = Outcome.fulfilled := by
  unfold checkZones
  simp only []
  split
  · rfl
  · exact checkZonesLoop_acknowledged env net hack _ _ _ _

/-- A pass in which every call is fulfilled goes through the whole list, and
fetches for every symbol in order. -/
theorem forEachPair_complete (check : Symbol → State → Outcome × State)
    (urls : Symbol → List String)
    (hfulfilled : ∀ pair s, (check pair s).1 = Outcome.fulfilled)
    (hfetched : ∀ pair s, (check pair s).2.fetched = s.fetched ++ urls pair)
    (pairs : List Symbol) :
    ∀ s, (forEachPair check pairs s).1 = Outcome.fulfilled ∧
      (forEachPair check pairs s).2.fetched = s.fetched ++ pairs.flatMap urls := by
  induction pairs with
  | nil => intro s; simp [forEachPair]
  | cons pair rest ih =>
    intro s
    have h1 := hfulfilled pair s
    have h2 := hfetched pair s
    unfold forEachPair
    split
    · rename_i s1 heq
      rw [heq] at h2
      have h := ih s1
      refine ⟨h.1, ?_⟩
      rw [h.2, h2]
      simp
    · rename_i s1 heq
      rw [heq] at h1
      cases h1

/-- A pass stops at the first rejected call: its result is the result of that
call, and nothing is done for the symbols after it. -/
theorem forEachPair_abort (check : Symbol → State → Outcome × State)
    (pre : List Symbol) (pair : Symbol) (post : List Symbol) :
    ∀ (s s1 s2 : State), forEachPair check pre s = (Outcome.fulfilled, s1) →
      check pair s1 = (Outcome.rejected, s2) →
      forEachPair check (pre ++ pair :: post) s = (Outcome.rejected, s2) := by
  induction pre with
  | nil =>
    intro s s1 s2 hpre hpair
    simp only [forEachPair, Prod.mk.injEq, true_and] at hpre
    subst hpre
    simp [forEachPair, hpair]
  | cons head rest ih =>
    intro s s1 s2 hpre hpair
    simp only [List.cons_append]
    unfold forEachPair at hpre ⊢
    split
    · rename_i s3 heq
      rw [heq] at hpre
      exact ih s3 s1 s2 hpre hpair
    · rename_i s3 heq
      rw [heq] at hpre
      simp at hpre

/-- Claim C6, counterexample. The sink fails every delivery. The hourly pass is
rejected at the first symbol, AUDCAD: only its three provider requests are
issued, and the second symbol, AUDCHF, is never fetched. -/
theorem hourlyCheck_aborts :
    (hourlyCheck (sampleEnv none) (constNet (sampleEntry 55) false) State.init).1 =
        Outcome.rejected ∧
      (hourlyCheck (sampleEnv none) (constNet (sampleEntry 55) false) State.init).2.fetched =
        [rsiUrl (sampleEnv none) "AUDCAD", ichimokuUrl (sampleEnv none) "AUDCAD",
          emaUrl (sampleEnv none) "AUDCAD"] ∧
      rsiUrl (sampleEnv none) "AUDCHF" ∉
        (hourlyCheck (sampleEnv none) (constNet (sampleEntry 55) false)
          State.init).2.fetched := by
  have hfirst : (checkAndAlert (sampleEnv none) (constNet (sampleEntry 55) false) "AUDCAD"
      State.init).1 = Outcome.rejected := by
    have hmax : MAX_DAILY_ALERTS (sampleEnv none) = JSNum.ofInt 800 := by decide
    simp [checkAndAlert, getRSI, getIchimoku, getEMA, sendTelegram, constNet, sampleEntry,
      firstEntry, parseFloat, JSNum.isNaN, JSNum.toBoolean, hmax, State.init,
      ge_ofNat_ofInt]
  have hpass : hourlyCheck (sampleEnv none) (constNet (sampleEntry 55) false) State.init =
      (Outcome.rejected, (checkAndAlert (sampleEnv none) (constNet (sampleEntry 55) false)
        "AUDCAD" State.init).2) := by
    unfold hourlyCheck
    exact forEachPair_abort _ [] "AUDCAD" _ State.init State.init _ rfl
      (Prod.ext hfirst rfl)
  rw [hpass]
  simp only [checkAndAlert_fetched]
  refine ⟨trivial, by simp [State.fetched, State.init], ?_⟩
  simp only [State.fetched, State.init, List.filterMap_nil, List.nil_append]
  decide

/-- Claim C6, amended. In every pass over the symbol list the symbols are taken
in order and the pass goes on to the next symbol only after a call that is
fulfilled. When the sink acknowledges every delivery, the hourly pass, the zone
pass and the startup pass are fulfilled and fetch for every symbol of
`FOREX_PAIRS`, whatever the provider answers. A call that is rejected, which
is what a delivery failure does, ends the pass there: the pass is rejected with
the state that call left and no later symbol is fetched. -/
theorem pass_until_rejected (env : ProcessEnv) (net : Net) (s : State) :
    ((∀ t url chat text, net.post t url chat text = true) →
      ((hourlyCheck env net s).1 = Outcome.fulfilled ∧
        (hourlyCheck env net s).2.fetched = s.fetched ++
          FOREX_PAIRS.flatMap
            (fun pair => [rsiUrl env pair, ichimokuUrl env pair, emaUrl env pair])) ∧
      ((zoneCheck env net s).1 = Outcome.fulfilled ∧
        (zoneCheck env net s).2.fetched = s.fetched ++
          FOREX_PAIRS.flatMap (fun pair => [rsiUrl env pair])) ∧
      ((onServerStart env net s).1 = Outcome.fulfilled ∧
        (onServerStart env net s).2.fetched = s.fetched ++
          FOREX_PAIRS.flatMap
            (fun pair => [rsiUrl env pair, ichimokuUrl env pair, emaUrl env pair]))) ∧
    (∀ (pre : List Symbol) (pair : Symbol) (post : List Symbol) (s0 s1 s2 : State),
      FOREX_PAIRS = pre ++ pair :: post →
      (forEachPair (checkAndAlert env net) pre s = (Outcome.fulfilled, s1) →
        checkAndAlert env net pair s1 = (Outcome.rejected, s2) →
        hourlyCheck env net s = (Outcome.rejected, s2)) ∧
      (forEachPair (checkZones env net) pre s = (Outcome.fulfilled, s1) →
        checkZones env net pair s1 = (Outcome.rejected, s2) →
        zoneCheck env net s = (Outcome.rejected, s2)) ∧
      (sendTelegram env net Msg.started s = (Outcome.fulfilled, s0) →
        forEachPair (checkAndAlert env net) pre s0 = (Outcome.fulfilled, s1) →
        checkAndAlert env net pair s1 = (Outcome.rejected, s2) →
        onServerStart env net s = (Outcome.rejected, s2))) ∧
    (∀ s2 : State, sendTelegram env net Msg.started s = (Outcome.rejected, s2) →
      onServerStart env net s = (Outcome.rejected, s2)) := by
  refine ⟨fun hack => ⟨?_, ?_, ?_⟩, ?_, ?_⟩
  · exact forEachPair_complete (checkAndAlert env net) _
      (checkAndAlert_acknowledged env net hack) (checkAndAlert_fetched env net)
      FOREX_PAIRS s
  · exact forEachPair_complete (checkZones env net) _
      (checkZones_acknowledged env net hack) (checkZones_fetched env net)
      FOREX_PAIRS s
  · have hstart := sendTelegram_acknowledged env net hack Msg.started s
    have hfetched := sendTelegram_fetched env net Msg.started s
    have hloop := forEachPair_complete (checkAndAlert env net) _
      (checkAndAlert_acknowledged env net hack) (checkAndAlert_fetched env net)
      FOREX_PAIRS (sendTelegram env net Msg.started s).2
    unfold onServerStart
    split
    · rename_i s1 heq
      rw [heq] at hloop hfetched
      rw [← hfetched]
      exact hloop
    · rename_i s1 heq
      rw [heq] at hstart
      cases hstart
  · intro pre pair post s0 s1 s2 hpairs
    refine ⟨?_, ?_, ?_⟩
    · intro hpre hpair
      unfold hourlyCheck
      rw [hpairs]
      exact forEachPair_abort _ pre pair post s s1 s2 hpre hpair
    · intro hpre hpair
      unfold zoneCheck
      rw [hpairs]
      exact forEachPair_abort _ pre pair post s s1 s2 hpre hpair
    · intro hstart hpre hpair
      unfold onServerStart
      rw [hstart, hpairs]
      exact forEachPair_abort _ pre pair post s0 s1 s2 hpre hpair
  · intro s2 hstart
    unfold onServerStart
    rw [hstart]

/-- Witness for C6 (amended): with a sink that acknowledges every delivery the
hourly pass is fulfilled and fetches for all 28 symbols, although the provider
rejects every request. -/
theorem pass_until_rejected_witness :
    (hourlyCheck (sampleEnv none) downNet State.init).1 = Outcome.fulfilled ∧
      (hourlyCheck (sampleEnv none) downNet State.init).2.fetched.length = 84 := by
  have h := ((pass_until_rejected (sampleEnv none) downNet State.init).1
    (fun _ _ _ _ => rfl)).1
  refine ⟨h.1, ?_⟩
  rw [h.2]
  rfl

/-! ## The configured ceiling -/

theorem isDigit_toNat (c : Char) (h : c.isDigit = true) : 48 ≤ c.toNat ∧ c.toNat ≤ 57 := by
  simp only [Char.isDigit, Bool.and_eq_true, decide_eq_true_eq] at h
  obtain ⟨h1, h2⟩ := h
  have h1n : (48 : UInt32).toNat ≤ c.val.toNat := h1
  have h2n : c.val.toNat ≤ (57 : UInt32).toNat := h2
  exact ⟨h1n, h2n⟩

theorem not_isDigit_toNat (c : Char) (h : c.isDigit = false) :
    ¬ (48 ≤ c.toNat ∧ c.toNat ≤ 57) := by
  intro hc
  have hd : c.isDigit = true := by
    simp only [Char.isDigit, Bool.and_eq_true, decide_eq_true_eq]
    exact ⟨(show (48 : UInt32).toNat ≤ c.val.toNat from hc.1),
      (show c.val.toNat ≤ (57 : UInt32).toNat from hc.2)⟩
  rw [h] at hd
  cases hd

theorem isWhiteSpace_digit (c : Char) (h : c.isDigit = true) : isWhiteSpace c = false := by
  have := isDigit_toNat c h
  simp only [isWhiteSpace, Bool.or_eq_false_iff, decide_eq_false_iff_not,
    Bool.and_eq_false_iff]
  omega

theorem isRadixDigit_digit (c : Char) (h : c.isDigit = true) : isRadixDigit 10 c = true := by
  have hc := isDigit_toNat c h
  simp only [isRadixDigit, digitValue, hc, and_self, if_true, decide_eq_true_eq]
  omega

theorem isRadixDigit_not_digit (c : Char) (h : c.isDigit = false) :
    isRadixDigit 10 c = false := by
  have hc := not_isDigit_toNat c h
  simp only [isRadixDigit, digitValue, hc, if_false]
  split
  · rename_i d hd
    split at hd
    · simp only [Option.some.injEq] at hd
      simp only [decide_eq_false_iff_not]
      omega
    · split at hd
      · simp only [Option.some.injEq] at hd
        simp only [decide_eq_false_iff_not]
        omega
      · cases hd
  · rfl

theorem digitValue_digit (c : Char) (h : c.isDigit = true) :
    (digitValue c).getD 0 = c.toNat - 48 := by
  have hc := isDigit_toNat c h
  simp [digitValue, hc]

theorem splitSign_digit (c : Char) (r : List Char) (h : c.isDigit = true) :
    splitSign (c :: r) = (1, c :: r) := by
  unfold splitSign
  split
  · rename_i heq
    simp only [List.cons.injEq] at heq
    rw [heq.1] at h
    exact absurd h (by decide)
  · rename_i heq
    simp only [List.cons.injEq] at heq
    rw [heq.1] at h
    exact absurd h (by decide)
  · rfl

theorem splitRadix_digits (S : List Char) (h : ∀ c ∈ S, c.isDigit = true) :
    splitRadix S = (10, S) := by
  unfold splitRadix
  split
  · have hx := h (Char.ofNat 120) (by simp)
    exact absurd hx (by decide)
  · have hx := h (Char.ofNat 88) (by simp)
    exact absurd hx (by decide)
  · rfl

theorem splitRadix_not_digit (S : List Char) (h : leadingDigit S = false) :
    splitRadix S = (10, S) := by
  unfold splitRadix
  split
  · exact absurd (show (Char.ofNat 48).isDigit = false from h) (by decide)
  · exact absurd (show (Char.ofNat 48).isDigit = false from h) (by decide)
  · rfl

theorem takeWhile_digits (S : List Char) (h : ∀ c ∈ S, c.isDigit = true) :
    S.takeWhile (isRadixDigit 10) = S := by
  rw [List.takeWhile_eq_self_iff]
  intro c hc
  exact isRadixDigit_digit c (h c hc)

theorem takeWhile_not_digit (S : List Char) (h : leadingDigit S = false) :
    S.takeWhile (isRadixDigit 10) = [] := by
  cases S with
  | nil => rfl
  | cons c r =>
    have hc : isRadixDigit 10 c = false := isRadixDigit_not_digit c h
    simp [List.takeWhile, hc]

theorem digitsValue_digits (S : List Char) (h : ∀ c ∈ S, c.isDigit = true) :
    ∀ acc : Nat, S.foldl (fun n c => n * 10 + (digitValue c).getD 0) acc =
      S.foldl (fun n c => n * 10 + (c.toNat - (Char.ofNat 48).toNat)) acc := by
  induction S with
  | nil => intro acc; rfl
  | cons c r ih =>
    intro acc
    simp only [List.foldl_cons]
    rw [digitValue_digit c (h c (by simp))]
    exact ih (fun d hd => h d (by simp [hd])) _

theorem excessBits_quotient_pos (fuel : Nat) :
    ∀ n : Nat, 0 < n → 0 < n / 2 ^ excessBits fuel n := by
  induction fuel with
  | zero => intro n hn; simpa [excessBits] using hn
  | succ k ih =>
    intro n hn
    unfold excessBits
    split
    · simpa using hn
    · rename_i hbig
      have hhalf : 0 < n / 2 := by
        have : 2 ^ 53 ≤ n := not_lt.mp hbig
        omega
      have hrec := ih (n / 2) hhalf
      rw [pow_succ, Nat.mul_comm, ← Nat.div_div_eq_div_mul]
      exact hrec

/-- The double nearest to a positive integer is not zero. -/
theorem roundToDouble_pos (n m : Nat) (hn : 0 < n) (h : roundToDouble n = some m) :
    0 < m := by
  have hq := excessBits_quotient_pos n n hn
  have hpow : 0 < 2 ^ excessBits n n := Nat.two_pow_pos _
  simp only [roundToDouble] at h
  split_ifs at h with hrange hup
  · simp only [Option.some.injEq] at h
    rw [← h]
    exact Nat.mul_pos (by omega) hpow
  · simp only [Option.some.injEq] at h
    rw [← h]
    exact Nat.mul_pos hq hpow

theorem ofInt_natCast (m : Nat) : JSNum.ofInt (m : ℤ) = JSNum.ofNat m := by
  simp [JSNum.ofInt, JSNum.ofNat]

theorem splitRadix_numeral (ds tl : List Char) (hall : ∀ c ∈ ds, c.isDigit = true)
    (hpos : 0 < ds.foldl (fun n c => n * 10 + (c.toNat - (Char.ofNat 48).toNat)) 0) :
    splitRadix (ds ++ tl) = (10, ds ++ tl) := by
  cases ds with
  | nil => simp at hpos
  | cons c rest =>
    cases rest with
    | nil =>
      unfold splitRadix
      split
      · rename_i heq
        simp only [List.cons_append, List.nil_append, List.cons.injEq] at heq
        rw [heq.1] at hpos
        exact absurd hpos (by decide)
      · rename_i heq
        simp only [List.cons_append, List.nil_append, List.cons.injEq] at heq
        rw [heq.1] at hpos
        exact absurd hpos (by decide)
      · rfl
    | cons d more =>
      have hd : d.isDigit = true := hall d (by simp)
      unfold splitRadix
      split
      · rename_i heq
        simp only [List.cons_append, List.cons.injEq] at heq
        rw [heq.2.1] at hd
        exact absurd hd (by decide)
      · rename_i heq
        simp only [List.cons_append, List.cons.injEq] at heq
        rw [heq.2.1] at hd
        exact absurd hd (by decide)
      · rfl

theorem takeWhile_numeral (ds tl : List Char) (hall : ∀ c ∈ ds, c.isDigit = true)
    (htl : leadingDigit tl = false) :
    (ds ++ tl).takeWhile (isRadixDigit 10) = ds := by
  induction ds with
  | nil => simpa using takeWhile_not_digit tl htl
  | cons c rest ih =>
    have hc : isRadixDigit 10 c = true := isRadixDigit_digit c (hall c (by simp))
    simp only [List.cons_append, List.takeWhile_cons, hc, if_true, List.cons.injEq, true_and]
    exact ih (fun d hd => hall d (by simp [hd]))

/-- On a text that begins with a decimal numeral of a positive integer `n`,
followed by nothing or by a character that is not a decimal digit, `parseInt`
reads `n` and returns the double nearest to it. -/
theorem parseInt_numeral (numeral tail : String) (n : Nat)
    (h : numeral.toNat? = some n) (hpos : 0 < n)
    (htail : leadingDigit tail.toList = false) :
    parseInt (some (numeral ++ tail)) =
      (match roundToDouble n with
        | some m => JSNum.ofNat m
        | none => JSNum.posInf) := by
  unfold String.toNat? at h
  split at h
  · rename_i hnat
    simp only [Option.some.injEq] at h
    simp only [String.isNat, Bool.and_eq_true, Bool.not_eq_true', String.all_eq,
      List.all_eq_true] at hnat
    obtain ⟨hne, hall⟩ := hnat
    rw [String.foldl_eq] at h
    have hdata : ∃ c r, numeral.data = c :: r := by
      cases hd : numeral.data with
      | nil => simp [String.isEmpty, String.endPos, String.utf8ByteSize, hd] at hne
      | cons c r => exact ⟨c, r, rfl⟩
    obtain ⟨c, r, hcr⟩ := hdata
    have hc : c.isDigit = true := hall c (by rw [hcr]; simp)
    have hall2 : ∀ d ∈ c :: r, d.isDigit = true := by rw [← hcr]; exact hall
    have hvalue : (c :: r).foldl (fun n c => n * 10 + (c.toNat - (Char.ofNat 48).toNat)) 0
        = n := by rw [← hcr]; exact h
    have hdrop : (c :: (r ++ tail.data)).dropWhile isWhiteSpace = c :: (r ++ tail.data) := by
      simp [List.dropWhile, isWhiteSpace_digit c hc]
    have hradix := splitRadix_numeral (c :: r) tail.data hall2 (by rw [hvalue]; exact hpos)
    have htake := takeWhile_numeral (c :: r) tail.data hall2 htail
    have hdigits : digitsValue 10 (c :: r) = n := by
      rw [← hvalue]
      exact digitsValue_digits (c :: r) hall2 0
    simp only [List.cons_append] at hradix htake
    unfold parseInt
    simp only [render, String.toList, String.data_append, hcr, List.cons_append, hdrop,
      splitSign_digit c (r ++ tail.data) hc, hradix, htake, hdigits]
    simp only [List.isEmpty_cons, Bool.false_eq_true, if_false, one_mul]
    cases roundToDouble n with
    | none => simp
    | some m => simp [ofInt_natCast]
  · cases h

/-- On a text with no digit at its front, `parseInt` reads no number. -/
theorem parseInt_startsWithoutDigit (text : String) (h : startsWithoutDigit text = true) :
    parseInt (some text) = JSNum.nan := by
  have hparse : ∀ (sign : ℤ) (S : List Char), leadingDigit S = false →
      (if ((splitRadix S).2.takeWhile (isRadixDigit (splitRadix S).1)).isEmpty then JSNum.nan
        else
          match roundToDouble (digitsValue (splitRadix S).1
              ((splitRadix S).2.takeWhile (isRadixDigit (splitRadix S).1))) with
          | some m => JSNum.ofInt (sign * (m : ℤ))
          | none => if sign = -1 then JSNum.negInf else JSNum.posInf) = JSNum.nan := by
    intro sign S hS
    rw [splitRadix_not_digit S hS]
    simp only [takeWhile_not_digit S hS, List.isEmpty_nil, if_true]
  unfold startsWithoutDigit at h
  unfold parseInt
  simp only [render]
  split at h
  · rename_i rest heq
    simp only [Bool.not_eq_true'] at h
    have hsign : splitSign (text.toList.dropWhile isWhiteSpace) = (-1, rest) := by
      rw [heq]; rfl
    simp only [hsign]
    exact hparse (-1) rest h
  · rename_i rest heq
    simp only [Bool.not_eq_true'] at h
    have hsign : splitSign (text.toList.dropWhile isWhiteSpace) = (1, rest) := by
      rw [heq]; rfl
    simp only [hsign]
    exact hparse 1 rest h
  · rename_i S hminus hplus
    simp only [Bool.not_eq_true'] at h
    have hsign : splitSign (text.toList.dropWhile isWhiteSpace) =
        (1, text.toList.dropWhile isWhiteSpace) := by
      unfold splitSign
      split
      · rename_i r heq; exact absurd heq (hminus r)
      · rename_i r heq; exact absurd heq (hplus r)
      · rfl
    simp only [hsign]
    exact hparse 1 _ h

theorem toNat_12abc : ("12abc" : String).toNat? = none := by
  simp [String.toNat?, String.isNat, String.isEmpty, String.all_eq]

theorem toNat_large : ("9007199254740993" : String).toNat? = some 9007199254740993 := by
  simp [String.toNat?, String.isNat, String.isEmpty, String.all_eq, String.foldl_eq]
  decide

/-- Claim C9, counterexample. The value `12abc` is not a number, yet the ceiling
computed from it is 12 and not 800; and the value `9007199254740993` is a
numeral of a positive integer, yet the ceiling computed from it is
9007199254740992, the nearest double. -/
theorem ceiling_misread :
    ("12abc" : String).toNat? = none ∧
      MAX_DAILY_ALERTS (sampleEnv (some "12abc")) = JSNum.ofNat 12 ∧
      MAX_DAILY_ALERTS (sampleEnv (some "12abc")) ≠ JSNum.ofNat 800 ∧
      ("9007199254740993" : String).toNat? = some 9007199254740993 ∧
      MAX_DAILY_ALERTS (sampleEnv (some "9007199254740993")) =
        JSNum.ofNat 9007199254740992 ∧
      MAX_DAILY_ALERTS (sampleEnv (some "9007199254740993")) ≠
        JSNum.ofNat 9007199254740993 := by
  have h12 : MAX_DAILY_ALERTS (sampleEnv (some "12abc")) = JSNum.ofInt 12 := by decide
  have hbig : MAX_DAILY_ALERTS (sampleEnv (some "9007199254740993")) =
      JSNum.ofInt 9007199254740992 := by decide
  refine ⟨toNat_12abc, ?_, ?_, toNat_large, ?_, ?_⟩
  · rw [h12]; simp [JSNum.ofInt, JSNum.ofNat]
  · rw [h12]; simp [JSNum.ofInt, JSNum.ofNat]
  · rw [hbig]; simp [JSNum.ofInt, JSNum.ofNat]
  · rw [hbig]; simp [JSNum.ofInt, JSNum.ofNat]

/-- Claim C9, amended. The ceiling computed from the configuration is 800 when
the variable is unset and when no decimal digit stands at the front of its
value (after leading white space and one optional sign). When the value begins
with a numeral of a positive integer, followed by nothing or by a character
that is not a digit, the ceiling is the double nearest to that integer
(`Infinity` beyond the range of doubles): the integer itself whenever it is at
most `2 ^ 53`. -/
theorem MAX_DAILY_ALERTS_config (env : ProcessEnv) :
    (env.MAX_DAILY_ALERTS = none → MAX_DAILY_ALERTS env = JSNum.ofNat 800) ∧
      (∀ text : String, env.MAX_DAILY_ALERTS = some text →
        startsWithoutDigit text = true → MAX_DAILY_ALERTS env = JSNum.ofNat 800) ∧
      (∀ (numeral tail : String) (n : Nat),
        env.MAX_DAILY_ALERTS = some (numeral ++ tail) → numeral.toNat? = some n → 0 < n →
        leadingDigit tail.toList = false →
        MAX_DAILY_ALERTS env =
            (match roundToDouble n with
              | some m => JSNum.ofNat m
              | none => JSNum.posInf) ∧
          (n ≤ 2 ^ 53 → MAX_DAILY_ALERTS env = JSNum.ofNat n)) := by
  have h800 : JSNum.ofInt 800 = JSNum.ofNat 800 := by simp [JSNum.ofInt, JSNum.ofNat]
  refine ⟨?_, ?_, ?_⟩
  · intro h
    unfold MAX_DAILY_ALERTS
    rw [h, ← h800]
    rfl
  · intro text h hnon
    unfold MAX_DAILY_ALERTS
    rw [h, parseInt_startsWithoutDigit text hnon, ← h800]
    rfl
  · intro numeral tail n h hnum hpos htail
    have hparse := parseInt_numeral numeral tail n hnum hpos htail
    have hmax : MAX_DAILY_ALERTS env =
        (match roundToDouble n with
          | some m => JSNum.ofNat m
          | none => JSNum.posInf) := by
      unfold MAX_DAILY_ALERTS
      rw [h, hparse]
      cases hround : roundToDouble n with
      | none => simp [JSNum.toBoolean]
      | some m =>
        have hm : 0 < m := roundToDouble_pos n m hpos hround
        have hne : ¬ m = 0 := by omega
        simp [JSNum.toBoolean, JSNum.ofNat, hne]
    refine ⟨hmax, ?_⟩
    intro hsmall
    rw [hmax, roundToDouble_exact n hsmall]

/-- Witness for C9 (amended): unset gives 800, the value `abc` gives 800, the
value `250` gives 250, and the values `12abc`, `3.9` and `1e3` give 12, 3
and 1. -/
theorem MAX_DAILY_ALERTS_config_witness :
    MAX_DAILY_ALERTS (sampleEnv none) = JSNum.ofNat 800 ∧
      MAX_DAILY_ALERTS (sampleEnv (some "abc")) = JSNum.ofNat 800 ∧
      MAX_DAILY_ALERTS (sampleEnv (some "250")) = JSNum.ofNat 250 ∧
      MAX_DAILY_ALERTS (sampleEnv (some "12abc")) = JSNum.ofNat 12 ∧
      MAX_DAILY_ALERTS (sampleEnv (some "3.9")) = JSNum.ofNat 3 ∧
      MAX_DAILY_ALERTS (sampleEnv (some "1e3")) = JSNum.ofNat 1 :=
  ⟨(MAX_DAILY_ALERTS_config (sampleEnv none)).1 rfl,
    (MAX_DAILY_ALERTS_config (sampleEnv (some "abc"))).2.1 "abc" rfl (by decide),
    ((MAX_DAILY_ALERTS_config (sampleEnv (some "250"))).2.2 "250" "" 250 (by decide)
      (by simp [String.toNat?, String.isNat, String.isEmpty, String.all_eq,
        String.foldl_eq]; decide)
      (by decide) (by decide)).2 (by decide),
    ((MAX_DAILY_ALERTS_config (sampleEnv (some "12abc"))).2.2 "12" "abc" 12 (by decide)
      (by simp [String.toNat?, String.isNat, String.isEmpty, String.all_eq,
        String.foldl_eq]; decide)
      (by decide) (by decide)).2 (by decide),
    ((MAX_DAILY_ALERTS_config (sampleEnv (some "3.9"))).2.2 "3" ".9" 3 (by decide)
      (by simp [String.toNat?, String.isNat, String.isEmpty, String.all_eq,
        String.foldl_eq]; decide)
      (by decide) (by decide)).2 (by decide),
    ((MAX_DAILY_ALERTS_config (sampleEnv (some "1e3"))).2.2 "1" "e3" 1 (by decide)
      (by simp [String.toNat?, String.isNat, String.isEmpty, String.all_eq,
        String.foldl_eq]; decide)
      (by decide) (by decide)).2 (by decide)⟩

/-! ## The indicator client -/

theorem getRSI_result (env : ProcessEnv) (net : Net) (symbol : Symbol) (s : State) :
    (getRSI env net symbol s).1 =
      (match net.get s.log.length (rsiUrl env symbol) with
        | Response.fulfilled (some data) =>
          (match parseFloat ((firstEntry data).bind Entry.rsi) with
            | JSNum.nan => none
            | value => some value)
        | _ => none) := by
  simp only [getRSI]
  generalize net.get s.log.length (rsiUrl env symbol) = response
  cases response with
  | rejected => rfl
  | fulfilled body =>
    cases body with
    | none => rfl
    | some data =>
      simp only []
      cases parseFloat ((firstEntry data).bind Entry.rsi) <;> rfl

theorem getEMA_result (env : ProcessEnv) (net : Net) (symbol : Symbol) (s : State) :
    (getEMA env net symbol s).1 =
      (match net.get s.log.length (emaUrl env symbol) with
        | Response.fulfilled (some data) =>
          (match parseFloat ((firstEntry data).bind Entry.ema) with
            | JSNum.nan => none
            | JSNum.fin q => if q = 0 then none else some (JSNum.fin q)
            | value => some value)
        | _ => none) := by
  simp only [getEMA]
  generalize net.get s.log.length (emaUrl env symbol) = response
  cases response with
  | rejected => rfl
  | fulfilled body =>
    cases body with
    | none => rfl
    | some data =>
      simp only []
      cases parseFloat ((firstEntry data).bind Entry.ema) with
      | nan => rfl
      | negInf => rfl
      | posInf => rfl
      | fin q => by_cases hq : q = 0 <;> simp [JSNum.toBoolean, hq]

/-- Claim C8, failing input. The provider answers with a series whose first
element has the value 0 for both indicators: `getRSI` returns 0, and `getEMA`
returns null. -/
theorem getEMA_zero :
    (getRSI (sampleEnv none)
        (constNet ⟨some (JSNum.fin 0), some (JSNum.fin 0), none, none, none⟩ true)
        "EURUSD" State.init).1 = some (JSNum.fin 0) ∧
      (getEMA (sampleEnv none)
        (constNet ⟨some (JSNum.fin 0), some (JSNum.fin 0), none, none, none⟩ true)
        "EURUSD" State.init).1 = none := by
  constructor
  · simp [getRSI, constNet, firstEntry, parseFloat, JSNum.isNaN]
  · simp [getEMA, constNet, firstEntry, parseFloat, JSNum.toBoolean]

/-! ## Startup -/

theorem sendTelegram_log_extends (env : ProcessEnv) (net : Net) (msg : Msg) (s : State) :
    s.log <+: (sendTelegram env net msg s).2.log := by
  unfold sendTelegram
  simp only []
  split
  · simp
  · split <;> simp [List.append_assoc]

theorem checkAndAlert_log_extends (env : ProcessEnv) (net : Net) (pair : Symbol)
    (s : State) :
    (s.log ++ [Event.get (rsiUrl env pair)]) <+: (checkAndAlert env net pair s).2.log := by
  unfold checkAndAlert
  simp only []
  split
  · refine List.IsPrefix.trans ?_ (sendTelegram_log_extends env net _ _)
    simp [List.append_assoc]
  · simp [List.append_assoc]

theorem forEachPair_log_extends (env : ProcessEnv) (net : Net) (pairs : List Symbol)
    (s : State) : s.log <+: (forEachPair (checkAndAlert env net) pairs s).2.log := by
  exact forEachPair_preserves (checkAndAlert env net) (fun st => s.log <+: st.log)
    (fun pair st hst => List.IsPrefix.trans hst
      (List.IsPrefix.trans (List.prefix_append _ _) (checkAndAlert_log_extends env net pair st)))
    pairs s (List.prefix_refl _)

theorem take_of_prefix {α : Type} (l1 l2 : List α) (h : l1 <+: l2) :
    l2.take l1.length = l1 := by
  obtain ⟨t, rfl⟩ := h
  simp

/-- The first five events of a run of the script, for any configuration. -/
theorem main_log_take (env : ProcessEnv) (net : Net) :
    (main env net).2.log.take 5 =
      [Event.schedule "0 * * * 1-5", Event.schedule "0 */6 * * 1-5",
        Event.schedule "0 0 * * 1-5", Event.sendTelegram Msg.started,
        if (JSNum.ofNat 0).lt (MAX_DAILY_ALERTS env) = true then
          Event.post (TELEGRAM_API env) (CHAT_ID env) Msg.started
        else Event.get (rsiUrl env "AUDCAD")] := by
  apply take_of_prefix [_, _, _, _, _]
  unfold main onServerStart
  cases hge : (JSNum.ofNat 0).ge (MAX_DAILY_ALERTS env)
  · have hmax : (JSNum.ofNat 0).lt (MAX_DAILY_ALERTS env) = true :=
      (gate_open_iff env 0).mp hge
    simp only [hmax, if_true]
    have hlog : (sendTelegram env net Msg.started
        (((State.init.record (Event.schedule "0 * * * 1-5")).record
          (Event.schedule "0 */6 * * 1-5")).record (Event.schedule "0 0 * * 1-5"))).2.log =
        [Event.schedule "0 * * * 1-5", Event.schedule "0 */6 * * 1-5",
          Event.schedule "0 0 * * 1-5", Event.sendTelegram Msg.started,
          Event.post (TELEGRAM_API env) (CHAT_ID env) Msg.started] := by
      unfold sendTelegram
      simp only [record_alertCount, record_log, State.init, hge, Bool.false_eq_true,
        if_false]
      split <;> rfl
    split
    · rename_i s1 heq
      rw [heq] at hlog
      rw [← hlog]
      exact forEachPair_log_extends env net FOREX_PAIRS s1
    · rename_i s1 heq
      rw [heq] at hlog
      rw [← hlog]
  · have hmax : ¬ (JSNum.ofNat 0).lt (MAX_DAILY_ALERTS env) = true := by
      intro hlt
      rw [(gate_open_iff env 0).mpr hlt] at hge
      cases hge
    simp only [hmax, Bool.false_eq_true, if_false]
    rw [sendTelegram_denied env net Msg.started _ (by simpa [State.init] using hge)]
    simp only [FOREX_PAIRS]
    unfold forEachPair
    have hfirst := checkAndAlert_log_extends env net "AUDCAD"
      ((((State.init.record (Event.schedule "0 * * * 1-5")).record
        (Event.schedule "0 */6 * * 1-5")).record (Event.schedule "0 0 * * 1-5")).record
        (Event.sendTelegram Msg.started))
    split
    · rename_i s1 heq
      rw [heq] at hfirst
      exact List.IsPrefix.trans hfirst (forEachPair_log_extends env net _ s1)
    · rename_i s1 heq
      rw [heq] at hfirst
      exact hfirst

/-- Claim C10, counterexample. With every credential unset, the script registers
its three schedule triggers, reports no configuration error, and posts the
start message to the sink under a URL built from the missing token. -/
theorem main_without_credentials :
    API_KEY emptyEnv = none ∧ CHAT_ID emptyEnv = none ∧ BOT_TOKEN emptyEnv = none ∧
      (main emptyEnv downNet).2.log.take 5 =
        [Event.schedule "0 * * * 1-5", Event.schedule "0 */6 * * 1-5",
          Event.schedule "0 0 * * 1-5", Event.sendTelegram Msg.started,
          Event.post "https://api.telegram.org/botundefined/sendMessage" none
            Msg.started] := by
  refine ⟨rfl, rfl, rfl, ?_⟩
  rw [main_log_take]
  decide

/-- Claim C10, amended. For every configuration, also one in which a required
credential is missing, startup makes no check of the credentials and reports
no configuration error: the script registers its three schedule triggers, calls
`sendTelegram` with the start message and issues an outbound request, which is
the post of the start message when the ceiling is positive and the RSI request
for the first symbol otherwise. -/
theorem main_starts (env : ProcessEnv) (net : Net) :
    (main env net).2.scheduled =
        ["0 * * * 1-5", "0 */6 * * 1-5", "0 0 * * 1-5"] ∧
      (main env net).2.log.take 5 =
        [Event.schedule "0 * * * 1-5", Event.schedule "0 */6 * * 1-5",
          Event.schedule "0 0 * * 1-5", Event.sendTelegram Msg.started,
          if (JSNum.ofNat 0).lt (MAX_DAILY_ALERTS env) = true then
            Event.post (TELEGRAM_API env) (CHAT_ID env) Msg.started
          else Event.get (rsiUrl env "AUDCAD")] := by
  refine ⟨?_, main_log_take env net⟩
  have hsend : ∀ (msg : Msg) (st : State),
      (sendTelegram env net msg st).2.scheduled = st.scheduled := by
    intro msg st
    unfold sendTelegram
    simp only []
    split
    · simp [State.scheduled, Event.scheduled]
    · split <;> simp [State.scheduled, Event.scheduled]
  have hcheck : ∀ (pair : Symbol) (st : State),
      (checkAndAlert env net pair st).2.scheduled = st.scheduled := by
    intro pair st
    unfold checkAndAlert
    simp only []
    split
    · rw [hsend]; simp [State.scheduled, Event.scheduled]
    · simp [State.scheduled, Event.scheduled]
  have hloop : ∀ st : State,
      (forEachPair (checkAndAlert env net) FOREX_PAIRS st).2.scheduled = st.scheduled :=
    fun st => forEachPair_preserves (checkAndAlert env net)
      (fun st1 => st1.scheduled = st.scheduled)
      (fun pair st1 hst1 => (hcheck pair st1).trans hst1) FOREX_PAIRS st rfl
  have hstart := hsend Msg.started
    (((State.init.record (Event.schedule "0 * * * 1-5")).record
      (Event.schedule "0 */6 * * 1-5")).record (Event.schedule "0 0 * * 1-5"))
  unfold main onServerStart
  simp only []
  split
  · rename_i s1 heq
    rw [heq] at hstart
    rw [hloop s1, hstart]
    rfl
  · rename_i s1 heq
    rw [heq] at hstart
    rw [hstart]
    rfl

end Forex
